import Mathlib

/-!
Shallow embedding of the behavioral anomaly-scoring pipeline of the
online-exam-proctoring backend.

Python float values are modelled as exact rationals; decimal literals of the
source are taken at their decimal value.  NumPy aggregate functions are
modelled exactly: `np.mean xs = xs.sum / xs.length` and `np.std` is the real
square root of the population variance.  A Python expression that can raise
(float division by an exactly-zero denominator) is modelled with `Option`,
`none` standing for the raised exception.
-/

/-- Laplace-smoothing constant `EPSILON = 1e-6` of
`backend/routes/exam_routes.py` and the default `epsilon` argument of
`stable_z_score`. -/
def EPSILON : ℚ := 1 / 1000000

/-- Clip constant `MAX_Z_SCORE_CLIP = 10.0` declared in
`backend/routes/exam_routes.py` (line 20).  It is declared there and never
referenced again anywhere in the repository. -/
def MAX_Z_SCORE_CLIP : ℚ := 10

/-- `stable_z_score` from `backend/stable_z_score.py` (duplicated verbatim in
`backend/features/keystroke_feature_extractor.py`):
`return (measurement - mean) / (std + epsilon)` with the default
`epsilon = 1e-6`.  In Python the division raises `ZeroDivisionError` when
`std + epsilon` is exactly zero; that outcome is modelled as `none`. -/
def stable_z_score (measurement mean std : ℚ) : Option ℚ :=
  if std + EPSILON = 0 then none
  else some ((measurement - mean) / (std + EPSILON))

/-- One entry of a per-feature baseline map: the `{mean: float, std: float}`
dictionaries stored by `save_baseline` and looked up with
`baseline_stats.get(name, {'mean': 0.0, 'std': 1.0})`. -/
structure BaselineEntry where
  mean : ℚ
  std : ℚ
deriving DecidableEq

/-- `np.mean` on a list of floats: sum divided by length (0 for the empty
list under the rational convention `x / 0 = 0`; the source always guards the
empty case separately). -/
def np_mean (xs : List ℚ) : ℚ := xs.sum / xs.length

/-- Population variance, the square of `np.std` (NumPy default `ddof=0`):
mean of the squared deviations from the mean. -/
def np_var (xs : List ℚ) : ℚ := np_mean (xs.map (fun x => (x - np_mean xs) ^ 2))

/-- `np.std` on a list of floats: the real square root of the population
variance. -/
noncomputable def np_std (xs : List ℚ) : ℝ := Real.sqrt (np_var xs)

/-- `np.mean` on a list of already-real values (used where the source takes
the mean of previously computed float aggregates). -/
noncomputable def np_mean_r (xs : List ℝ) : ℝ := xs.sum / xs.length

/-! ## Mouse feature extractor (`backend/features/mouse_feature_extractor.py`) -/

/-- One raw mouse event.  The source reads the dictionary keys `timestamp`,
`t` (alternate time field), `tab` and `event_type`; a key that is absent from
the event dictionary is `none`. -/
structure MouseEvent where
  timestamp : Option ℚ
  t : Option ℚ
  tab : Option String
  event_type : Option String
deriving DecidableEq

/-- `MOUSE_FEATURES` of `backend/routes/exam_routes.py`, identical to
`self.feature_names` of `MouseFeatureExtractor`. -/
def MOUSE_FEATURES : List String :=
  ["inactive_duration", "copy_cut", "paste", "double_click"]

/-- Time field of a mouse event after the normalization loop of
`_calculate_features`: `timestamp` if present, else the `t` alias.  An event
with neither field is logged as unusable by the source; it is modelled here
with time 0, a case no pipeline path relied on by the claims reaches. -/
def mouse_ts (e : MouseEvent) : ℚ :=
  match e.timestamp with
  | some v => v
  | none => e.t.getD 0

/-- Per-row `duration` column: time since the previous event, with the first
row filled with 0 (`shift(1)` followed by `fillna(0)`). -/
def mouse_durations (evs : List MouseEvent) : List ℚ :=
  match evs with
  | [] => []
  | _ :: rest => 0 :: List.zipWith (fun prev cur => mouse_ts cur - mouse_ts prev) evs rest

/-- `inactive_duration`: sum of the durations of the rows whose `tab` field is
not `'active'` (a missing `tab` value compares unequal to `'active'`), or 0
when no event carries a `tab` field at all (`if 'tab' in df else 0.0`). -/
def mouse_inactive_duration (evs : List MouseEvent) : ℚ :=
  if evs.any (fun e => e.tab.isSome) then
    (((evs.zip (mouse_durations evs)).filter
        (fun p => !(p.1.tab == some "active"))).map Prod.snd).sum
  else 0

/-- `copy_cut`: number of rows whose `event_type` is `'copy'` or `'cut'`, or 0
when no event carries an `event_type` field (`if 'event_type' in df else 0`). -/
def mouse_copy_cut (evs : List MouseEvent) : ℚ :=
  if evs.any (fun e => e.event_type.isSome) then
    ((evs.filter (fun e => e.event_type == some "copy" || e.event_type == some "cut")).length : ℚ)
  else 0

/-- `paste`: number of rows whose `event_type` is `'paste'`. -/
def mouse_paste (evs : List MouseEvent) : ℚ :=
  if evs.any (fun e => e.event_type.isSome) then
    ((evs.filter (fun e => e.event_type == some "paste")).length : ℚ)
  else 0

/-- `double_click`: number of rows whose `event_type` is `'dblclick'`. -/
def mouse_double_click (evs : List MouseEvent) : ℚ :=
  if evs.any (fun e => e.event_type.isSome) then
    ((evs.filter (fun e => e.event_type == some "dblclick")).length : ℚ)
  else 0

/-- `MouseFeatureExtractor._calculate_features` as a map from feature name to
raw value: zero-filled for an empty event list, and 0 for a name outside the
schema (`raw_features.get(name, 0.0)`). -/
def mouse_calculate_features (evs : List MouseEvent) (name : String) : ℚ :=
  if evs = [] then 0
  else if name = "inactive_duration" then mouse_inactive_duration evs
  else if name = "copy_cut" then mouse_copy_cut evs
  else if name = "paste" then mouse_paste evs
  else if name = "double_click" then mouse_double_click evs
  else 0

/-- Exam-mode normalization step of `MouseFeatureExtractor.extract_features`:
`(value - mean) / std if std > 0.0 else 0.0`. -/
def mouse_normalized_value (value mean std : ℚ) : ℚ :=
  if 0 < std then (value - mean) / std else 0

/-- One element of the exam-mode mouse vector: the raw value of `name`
normalized against `baseline_stats.get(name, {'mean': 0.0, 'std': 1.0})`. -/
def mouse_exam_value (evs : List MouseEvent) (b : String → Option BaselineEntry)
    (name : String) : ℚ :=
  let stats := (b name).getD ⟨0, 1⟩
  mouse_normalized_value (mouse_calculate_features evs name) stats.mean stats.std

/-- `MouseFeatureExtractor.extract_features`, feature-vector component:
raw values in calibration mode (`baseline_stats is None`), normalized values
in exam mode.  The extractor has no minimum-event guard of its own; it always
delegates to `_calculate_features`. -/
def mouse_extract_features (evs : List MouseEvent)
    (baseline : Option (String → Option BaselineEntry)) : List ℚ :=
  match baseline with
  | none => MOUSE_FEATURES.map (mouse_calculate_features evs)
  | some b => MOUSE_FEATURES.map (mouse_exam_value evs b)

/-! ## Fusion, severity and incident decision
(`backend/routes/exam_routes.py` steps 5-6, `backend/utils/db_helpers.py`) -/

/-- Step 5 fixed-weight fusion: `(0.5 * k_score) + (0.5 * m_score)`. -/
def fuse_scores (k_score m_score : ℚ) : ℚ := 0.5 * k_score + 0.5 * m_score

/-- Step 5 deviation boost: if either average deviation exceeds 0.5 the fused
score is multiplied by 1.2 and clamped to at most 1.0. -/
def apply_deviation_boost (fusion_score avg_k_deviation avg_m_deviation : ℚ) : ℚ :=
  if 0.5 < avg_k_deviation ∨ 0.5 < avg_m_deviation then min 1 (fusion_score * 1.2)
  else fusion_score

/-- Severity classification of `save_anomaly_record` in
`backend/utils/db_helpers.py`: `high` for score ≥ 0.8, `medium` for ≥ 0.6,
else `low`. -/
def severity_of (final_risk_score : ℚ) : String :=
  if 0.8 ≤ final_risk_score then "high"
  else if 0.6 ≤ final_risk_score then "medium"
  else "low"

/-- The fields of the `cheating_incidents` row assembled by
`save_anomaly_record` that the claims inspect. -/
structure AnomalyRecord where
  severity : String
  severity_score : ℚ
deriving DecidableEq

/-- Row written by `save_anomaly_record` for a given fusion score. -/
def save_anomaly_row (final_risk_score : ℚ) : AnomalyRecord :=
  ⟨severity_of final_risk_score, final_risk_score⟩

/-- Step 6 of `analyze_behavior`: a cheating incident is written exactly when
`fusion_score >= personalized_threshold`; `none` models the branch that writes
nothing. -/
def incident_decision (fusion_score personalized_threshold : ℚ) : Option AnomalyRecord :=
  if personalized_threshold ≤ fusion_score then some (save_anomaly_row fusion_score)
  else none

/-! ## Missing-baseline branch of `analyze_behavior`
(`backend/routes/exam_routes.py` lines 59-67, `get_student_baseline`) -/

/-- Parsed baseline record returned by `get_student_baseline`: the stored
per-feature statistics of both modalities and the personalized threshold. -/
structure StudentBaseline where
  keystroke_detailed_stats : String → Option BaselineEntry
  mouse_detailed_stats : String → Option BaselineEntry
  system_threshold : ℚ

/-- The guard of `analyze_behavior` on the baseline lookup: when
`get_student_baseline` returns nothing, the handler answers
`{"status": "no_baseline", ...}` with HTTP 200; otherwise it continues with
the rest of the pipeline, abstracted here as `proceed`. -/
def analyze_behavior_response (baseline : Option StudentBaseline)
    (proceed : StudentBaseline → String × ℕ) : String × ℕ :=
  match baseline with
  | none => ("no_baseline", 200)
  | some b => proceed b

/-! ## Keystroke feature extractor
(`backend/features/keystroke_feature_extractor.py`) -/

/-- One raw keystroke event with the fields the extractor reads:
`key`, `type` (`keydown` or `keyup`) and `timestamp`. -/
structure KeyEvent where
  key : String
  type : String
  timestamp : ℚ
deriving DecidableEq

/-- `KEYSTROKE_FEATURES` of `backend/routes/exam_routes.py`, identical to
`self.feature_names` of `KeystrokeFeatureExtractor`. -/
def KEYSTROKE_FEATURES : List String :=
  ["mean_du_key1_key1", "mean_dd_key1_key2", "mean_du_key1_key2",
   "mean_ud_key1_key2", "mean_uu_key1_key2", "std_du_key1_key1",
   "std_dd_key1_key2", "std_du_key1_key2", "std_ud_key1_key2",
   "std_uu_key1_key2", "keystroke_count"]

/-- `df.sort_values('timestamp')`: the events in ascending timestamp order
(pandas' default quicksort leaves the order of equal timestamps unspecified,
so any ascending-by-timestamp sort is a faithful model; insertion sort is
used here). -/
def sort_by_timestamp (evs : List KeyEvent) : List KeyEvent :=
  evs.insertionSort (fun a b => a.timestamp ≤ b.timestamp)

/-- The key-down subsequence (`df[df['type'] == 'keydown']`) of the sorted
events. -/
def key_presses (evs : List KeyEvent) : List KeyEvent :=
  (sort_by_timestamp evs).filter (fun e => e.type == "keydown")

/-- The key-up subsequence (`df[df['type'] == 'keyup']`) of the sorted
events. -/
def key_releases (evs : List KeyEvent) : List KeyEvent :=
  (sort_by_timestamp evs).filter (fun e => e.type == "keyup")

/-- Hold times (`DU.key1.key1`): positional subtraction
`releases['timestamp'][:min_len] - presses['timestamp'][:min_len]`, so the
i-th press is paired with the i-th release in timestamp order. -/
def hold_times (evs : List KeyEvent) : List ℚ :=
  List.zipWith (fun p r => r.timestamp - p.timestamp) (key_presses evs) (key_releases evs)

/-- Positionally matched (press, release) pairs, one per index valid in both
subsequences. -/
def key_pairs (evs : List KeyEvent) : List (KeyEvent × KeyEvent) :=
  (key_presses evs).zip (key_releases evs)

/-- Adjacent positional pairs `((p1, r1), (p2, r2))`, one per loop iteration
of the digraph-latency loop that passes both index guards. -/
def key_adjacent (evs : List KeyEvent) : List ((KeyEvent × KeyEvent) × KeyEvent × KeyEvent) :=
  (key_pairs evs).zip (key_pairs evs).tail

/-- Down-down latencies: `p2 - p1` per adjacent pair. -/
def dd_latencies (evs : List KeyEvent) : List ℚ :=
  (key_adjacent evs).map (fun q => q.2.1.timestamp - q.1.1.timestamp)

/-- Up-down latencies: `p2 - r1` per adjacent pair. -/
def ud_latencies (evs : List KeyEvent) : List ℚ :=
  (key_adjacent evs).map (fun q => q.2.1.timestamp - q.1.2.timestamp)

/-- Up-up latencies: `r2 - r1` per adjacent pair. -/
def uu_latencies (evs : List KeyEvent) : List ℚ :=
  (key_adjacent evs).map (fun q => q.2.2.timestamp - q.1.2.timestamp)

/-- Down-up latencies across a key pair: `r2 - p1` per adjacent pair. -/
def du_latencies (evs : List KeyEvent) : List ℚ :=
  (key_adjacent evs).map (fun q => q.2.2.timestamp - q.1.1.timestamp)

/-- `np.mean(xs) if len(xs) > 0 else 0.0`. -/
def mean_or_zero (xs : List ℚ) : ℚ := if 0 < xs.length then np_mean xs else 0

/-- `np.std(xs) if len(xs) > 0 else 0.0`. -/
noncomputable def std_or_zero (xs : List ℚ) : ℝ := if 0 < xs.length then np_std xs else 0

/-- Body of `KeystrokeFeatureExtractor._calculate_features` after its
too-few-events guard, as a map from standardized feature name to raw value
(0 for a name outside the schema, matching the `.get(..., 0.0)` lookups). -/
noncomputable def keystroke_raw_feature (evs : List KeyEvent) (name : String) : ℝ :=
  if name = "mean_du_key1_key1" then (mean_or_zero (hold_times evs) : ℝ)
  else if name = "std_du_key1_key1" then std_or_zero (hold_times evs)
  else if name = "mean_dd_key1_key2" then (mean_or_zero (dd_latencies evs) : ℝ)
  else if name = "mean_du_key1_key2" then (mean_or_zero (du_latencies evs) : ℝ)
  else if name = "mean_ud_key1_key2" then (mean_or_zero (ud_latencies evs) : ℝ)
  else if name = "mean_uu_key1_key2" then (mean_or_zero (uu_latencies evs) : ℝ)
  else if name = "std_dd_key1_key2" then std_or_zero (dd_latencies evs)
  else if name = "std_du_key1_key2" then std_or_zero (du_latencies evs)
  else if name = "std_ud_key1_key2" then std_or_zero (ud_latencies evs)
  else if name = "std_uu_key1_key2" then std_or_zero (uu_latencies evs)
  else if name = "keystroke_count" then ((key_presses evs).length : ℝ)
  else 0

/-- `KeystrokeFeatureExtractor._calculate_features`: zero map for fewer than
2 events, otherwise the computed raw features. -/
noncomputable def keystroke_calculate_features (evs : List KeyEvent) (name : String) : ℝ :=
  if evs.length < 2 then 0 else keystroke_raw_feature evs name

/-- `stable_z_score` as applied inside the exam-mode loop of
`extract_features`: the feature value is a float aggregate while the baseline
mean and std come from the stored statistics; the division raises exactly
when `std + epsilon` is zero, modelled as `none`. -/
noncomputable def stable_z_score_r (value : ℝ) (mean std : ℚ) : Option ℝ :=
  if std + EPSILON = 0 then none
  else some ((value - (mean : ℝ)) / ((std : ℝ) + (EPSILON : ℝ)))

/-- Sequence a list of fallible computations, propagating the first failure:
the Python `for` loop over feature names in which any raised exception aborts
the whole call. -/
def seq_option {α : Type} : List (Option α) → Option (List α)
  | [] => some []
  | o :: os => o.bind (fun v => (seq_option os).map (fun vs => v :: vs))

/-- `KeystrokeFeatureExtractor.extract_features`, feature-vector component:
a zero vector for fewer than 2 events (in both modes), the raw values in
calibration mode (`baseline_stats is None`), and the stable Z-scores against
`baseline_stats.get(name, {'mean': 0.0, 'std': 1.0})` in exam mode. -/
noncomputable def keystroke_extract_features (evs : List KeyEvent)
    (baseline : Option (String → Option BaselineEntry)) : Option (List ℝ) :=
  if evs.length < 2 then some (List.replicate KEYSTROKE_FEATURES.length 0)
  else
    match baseline with
    | none => some (KEYSTROKE_FEATURES.map (keystroke_calculate_features evs))
    | some b =>
      seq_option (KEYSTROKE_FEATURES.map (fun name =>
        let stats := (b name).getD ⟨0, 1⟩
        stable_z_score_r (keystroke_calculate_features evs name) stats.mean stats.std))

/-! ## Threshold engine
(`exam-proctoring-backend/routes/calibration_route.py`, `compute_threshold`) -/

/-- `compute_threshold` from the per-modality per-segment average scores
onward (lines 103-116 of `calibration_route.py`).  When both score lists are
empty the handler answers with an error (`none` here); otherwise each
non-empty modality contributes the moment estimate `mean + 1.25 * std`, the
contributed values are averaged into `fusion_mean`, and the final threshold
is `fusion_mean` when it exists and the constant `0.55` otherwise. -/
noncomputable def compute_threshold (mouse_scores keystroke_scores : List ℚ) : Option ℝ :=
  if mouse_scores = [] ∧ keystroke_scores = [] then none
  else
    let mouse_threshold : Option ℝ :=
      if mouse_scores = [] then none
      else some ((np_mean mouse_scores : ℝ) + 1.25 * np_std mouse_scores)
    let keystroke_threshold : Option ℝ :=
      if keystroke_scores = [] then none
      else some ((np_mean keystroke_scores : ℝ) + 1.25 * np_std keystroke_scores)
    let used_values : List ℝ :=
      (match mouse_threshold with | some v => [v] | none => []) ++
      (match keystroke_threshold with | some v => [v] | none => [])
    let fusion_mean : Option ℝ :=
      if used_values = [] then none else some (np_mean_r used_values)
    some (fusion_mean.getD 0.55)

/-! ## Spec-side comparison definition for hold-time pairing -/

/-- First release of key `k` at or after time `t` in a release list. -/
def find_release (k : String) (t : ℚ) : List KeyEvent → Option ℚ
  | [] => none
  | r :: rs => if r.key = k ∧ t ≤ r.timestamp then some r.timestamp
               else find_release k t rs

/-- Refinement comparison definition following the spec wording, not the
source: `hold time (release − press of same key)` — each key press paired
with the first subsequent release of the same key. -/
def spec_hold_times_same_key (evs : List KeyEvent) : List ℚ :=
  (key_presses evs).filterMap (fun p =>
    (find_release p.key p.timestamp (key_releases evs)).map (fun rt => rt - p.timestamp))

/-! ## Concrete inputs used by the claims -/

/-- End-to-end scenario 1 of the spec: `a` held from 0.0 to 0.1, `b` held
from 0.3 to 0.4. -/
def scenario1_events : List KeyEvent :=
  [⟨"a", "keydown", 0⟩, ⟨"a", "keyup", 1 / 10⟩,
   ⟨"b", "keydown", 3 / 10⟩, ⟨"b", "keyup", 4 / 10⟩]

/-- Overlapping (rollover) typing: `a` down at 0.0, `b` down at 0.05, `b` up
at 0.1, `a` up at 0.2. -/
def overlap_events : List KeyEvent :=
  [⟨"a", "keydown", 0⟩, ⟨"b", "keydown", 1 / 20⟩,
   ⟨"b", "keyup", 1 / 10⟩, ⟨"a", "keyup", 1 / 5⟩]

/-- Two key-down events and no release. -/
def two_keydown_events : List KeyEvent :=
  [⟨"a", "keydown", 0⟩, ⟨"b", "keydown", 1⟩]

/-- A degenerate stored baseline giving every feature `{mean: 0, std: 0}`. -/
def zero_std_baseline : String → Option BaselineEntry := fun _ => some ⟨0, 0⟩

/-- A single mouse event of type `copy`. -/
def single_copy_event : List MouseEvent := [⟨some 0, none, none, some "copy"⟩]

/-! ## Helper lemmas about the concrete inputs -/

/-- The scenario-1 event list is already in ascending timestamp order. -/
theorem sort_scenario1 : sort_by_timestamp scenario1_events = scenario1_events := by
  apply List.Sorted.insertionSort_eq
  simp [scenario1_events, List.sorted_cons]
  norm_num

/-- The overlapping-typing event list is already in ascending timestamp
order. -/
theorem sort_overlap : sort_by_timestamp overlap_events = overlap_events := by
  apply List.Sorted.insertionSort_eq
  simp [overlap_events, List.sorted_cons]
  norm_num

/-- The two-keydown event list is already in ascending timestamp order. -/
theorem sort_two_keydown : sort_by_timestamp two_keydown_events = two_keydown_events := by
  apply List.Sorted.insertionSort_eq
  simp [two_keydown_events, List.sorted_cons]

/-- Element-wise description of `List.zipWith` through optional indexing. -/
theorem zipWith_get_eq {α β γ : Type} (f : α → β → γ) :
    ∀ (as : List α) (bs : List β) (i : ℕ),
      (List.zipWith f as bs).get? i = (as.get? i).bind (fun a => (bs.get? i).map (f a))
  | [], _, _ => by simp
  | _ :: _, [], _ => by simp
  | a :: as, b :: bs, 0 => by simp
  | a :: as, b :: bs, i + 1 => by
    simpa using zipWith_get_eq f as bs i



/-! ## Claim theorems -/

/-- C1: evaluation of the exam-mode keystroke normalization at a concrete
input.  For two key-down events and a stored baseline giving every feature
`{mean: 0, std: 0}`, the normalized vector contains the value 2000000 for
`keystroke_count`, far outside `[-MAX_Z_SCORE_CLIP, MAX_Z_SCORE_CLIP]`: the
normalization step applies no clipping at all (the constant
`MAX_Z_SCORE_CLIP` is declared in `exam_routes.py` and never used). -/
theorem C1_exam_normalization_unclipped :
    keystroke_extract_features two_keydown_events (some zero_std_baseline) =
      some [0, 0, 0, 0, 0, 0, 0, 0, 0, 0, 2000000] ∧
    (MAX_Z_SCORE_CLIP : ℝ) < 2000000 := by
  have hp : key_presses two_keydown_events = two_keydown_events := by
    simp only [key_presses]
    rw [sort_two_keydown]
    simp [two_keydown_events]
  have hr : key_releases two_keydown_events = [] := by
    simp only [key_releases]
    rw [sort_two_keydown]
    simp [two_keydown_events]
  have hlen : two_keydown_events.length = 2 := by simp [two_keydown_events]
  have hhold : hold_times two_keydown_events = [] := by simp [hold_times, hr]
  have hadj : key_adjacent two_keydown_events = [] := by
    simp [key_adjacent, key_pairs, hr]
  have hdd : dd_latencies two_keydown_events = [] := by simp [dd_latencies, hadj]
  have hud : ud_latencies two_keydown_events = [] := by simp [ud_latencies, hadj]
  have huu : uu_latencies two_keydown_events = [] := by simp [uu_latencies, hadj]
  have hdu : du_latencies two_keydown_events = [] := by simp [du_latencies, hadj]
  constructor
  · simp [keystroke_extract_features, hlen, KEYSTROKE_FEATURES, zero_std_baseline,
      keystroke_calculate_features, keystroke_raw_feature, stable_z_score_r, seq_option,
      mean_or_zero, std_or_zero, hhold, hdd, hud, huu, hdu, hp, EPSILON]
    norm_num
  · norm_num [MAX_Z_SCORE_CLIP]

/-- C2 (amended): the keystroke extractor returns the all-zero vector for
fewer than 2 events in both calibration and exam mode; the mouse extractor
guarantees the all-zero vector only for an empty event list in calibration
mode. -/
theorem C2_short_input_zero_vector :
    (∀ (evs : List KeyEvent) (b : Option (String → Option BaselineEntry)),
      evs.length < 2 →
      keystroke_extract_features evs b = some (List.replicate KEYSTROKE_FEATURES.length 0)) ∧
    mouse_extract_features [] none = [0, 0, 0, 0] := by
  constructor
  · intro evs b h
    unfold keystroke_extract_features
    rw [if_pos h]
  · norm_num [mouse_extract_features, MOUSE_FEATURES, mouse_calculate_features]

/-- C2 witness: the keystroke guarantee applied to the empty event list. -/
theorem C2_short_input_zero_vector_witness :
    (([] : List KeyEvent).length < 2) ∧
    keystroke_extract_features [] none = some (List.replicate KEYSTROKE_FEATURES.length 0) :=
  ⟨by norm_num, C2_short_input_zero_vector.1 [] none (by norm_num)⟩

/-- C2 counterexample: a single mouse event of type `copy` (fewer than 2
events) already yields the non-zero calibration vector `[0, 1, 0, 0]`. -/
theorem C2_single_mouse_event_nonzero :
    single_copy_event.length < 2 ∧
    mouse_extract_features single_copy_event none = [0, 1, 0, 0] ∧
    mouse_extract_features single_copy_event none ≠ [0, 0, 0, 0] := by
  refine ⟨by norm_num [single_copy_event], ?_, ?_⟩ <;>
  · simp [mouse_extract_features, MOUSE_FEATURES, mouse_calculate_features,
      single_copy_event, mouse_inactive_duration, mouse_copy_cut, mouse_paste,
      mouse_double_click, List.filter_cons]

/-- C3 (amended): for a baseline entry with positive std the mouse exam-mode
value is the unsmoothed Z-score `(value - mean) / std`, which coincides with
the stabilized keystroke formula `(value - mean) / (std + EPSILON)` exactly
when `value = mean`; for nonpositive std the mouse value is 0. -/
theorem C3_mouse_normalization_formula :
    (∀ v mn s : ℚ, 0 < s →
      (mouse_normalized_value v mn s = (v - mn) / (s + EPSILON) ↔ v = mn)) ∧
    (∀ v mn s : ℚ, s ≤ 0 → mouse_normalized_value v mn s = 0) := by
  constructor
  · intro v mn s hs
    have heps : (0 : ℚ) < EPSILON := by norm_num [EPSILON]
    rw [mouse_normalized_value, if_pos hs,
      div_eq_div_iff (ne_of_gt hs) (by positivity)]
    constructor
    · intro hh
      have h2 : (v - mn) * EPSILON = 0 := by linear_combination hh
      rcases mul_eq_zero.1 h2 with h3 | h3
      · exact sub_eq_zero.1 h3
      · exact absurd h3 (ne_of_gt heps)
    · intro hh
      subst hh
      ring
  · intro v mn s hs
    rw [mouse_normalized_value, if_neg (not_lt.mpr hs)]

/-- C3 witness: at `value = mean = 0`, `std = 1` the two formulas agree. -/
theorem C3_mouse_normalization_formula_witness :
    mouse_normalized_value 0 0 1 = ((0 : ℚ) - 0) / (1 + EPSILON) :=
  (C3_mouse_normalization_formula.1 0 0 1 (by norm_num)).mpr rfl

/-- C3 counterexample: at `value = 1`, `mean = 0`, `std = 0` the mouse
extractor returns 0 while `stable_z_score` returns 1000000. -/
theorem C3_mouse_differs_from_stable_z :
    some (mouse_normalized_value 1 0 0) ≠ stable_z_score 1 0 0 := by
  norm_num [mouse_normalized_value, stable_z_score, EPSILON]

/-- C4: a cheating-incident row is produced exactly when the fusion score
reaches the personalized threshold, with severity `high` for score ≥ 0.8,
`medium` for score in [0.6, 0.8), `low` below 0.6; in particular fusion 0.9
against threshold 0.7 logs a `high` incident. -/
theorem C4_incident_iff_threshold_and_severity :
    (∀ f t : ℚ, (incident_decision f t).isSome ↔ t ≤ f) ∧
    (∀ f t : ℚ, t ≤ f → 0.8 ≤ f → incident_decision f t = some ⟨"high", f⟩) ∧
    (∀ f t : ℚ, t ≤ f → 0.6 ≤ f → f < 0.8 → incident_decision f t = some ⟨"medium", f⟩) ∧
    (∀ f t : ℚ, t ≤ f → f < 0.6 → incident_decision f t = some ⟨"low", f⟩) ∧
    incident_decision 0.9 0.7 = some ⟨"high", 0.9⟩ := by
  refine ⟨?_, ?_, ?_, ?_, ?_⟩
  · intro f t
    unfold incident_decision
    split_ifs with h <;> simp [h]
  · intro f t h h8
    rw [incident_decision, if_pos h, save_anomaly_row, severity_of, if_pos h8]
  · intro f t h h6 h8
    rw [incident_decision, if_pos h, save_anomaly_row, severity_of,
      if_neg (not_le.mpr h8), if_pos h6]
  · intro f t h h6
    rw [incident_decision, if_pos h, save_anomaly_row, severity_of,
      if_neg (not_le.mpr (lt_trans h6 (by norm_num))), if_neg (not_le.mpr h6)]
  · norm_num [incident_decision, save_anomaly_row, severity_of]

/-- C4 witness: the high-severity case applied at fusion 0.9, threshold
0.7. -/
theorem C4_incident_witness :
    ((0.7 : ℚ) ≤ 0.9) ∧ incident_decision 0.9 0.7 = some ⟨"high", 0.9⟩ :=
  ⟨by norm_num, C4_incident_iff_threshold_and_severity.2.1 0.9 0.7 (by norm_num) (by norm_num)⟩

/-- C5 (amended): threshold derivation has no minimum-sample-count guard.
Any non-empty keystroke score list (in particular one of 3 segments) yields
the moment-based estimate `mean + 1.25 * std`; the handler errors out (and
never reaches the 0.55 constant) only when both score lists are empty. -/
theorem C5_threshold_no_minimum_sample_guard :
    (∀ ks : List ℚ, ks ≠ [] →
      compute_threshold [] ks = some ((np_mean ks : ℝ) + 1.25 * np_std ks)) ∧
    compute_threshold [] [] = none := by
  constructor
  · intro ks h
    simp [compute_threshold, h, np_mean_r]
  · simp [compute_threshold]

/-- C5 witness: the moment estimate applied to a 3-segment calibration. -/
theorem C5_threshold_witness :
    ([(1 : ℚ) / 5, 1 / 5, 1 / 5] ≠ []) ∧
    compute_threshold [] [1 / 5, 1 / 5, 1 / 5] =
      some ((np_mean [(1 : ℚ) / 5, 1 / 5, 1 / 5] : ℝ) + 1.25 * np_std [(1 : ℚ) / 5, 1 / 5, 1 / 5]) :=
  ⟨by simp, C5_threshold_no_minimum_sample_guard.1 _ (by simp)⟩

/-- C5 counterexample: a calibration with exactly 3 segments, each scoring
0.2, yields the moment-based threshold 0.2 and not the fallback constant
0.55. -/
theorem C5_three_segments_moment_estimate :
    compute_threshold [] [1 / 5, 1 / 5, 1 / 5] = some ((1 : ℝ) / 5) ∧
    ((1 : ℝ) / 5) ≠ 0.55 := by
  have hm : np_mean [(1 : ℚ) / 5, 1 / 5, 1 / 5] = 1 / 5 := by norm_num [np_mean]
  have hv : np_var [(1 : ℚ) / 5, 1 / 5, 1 / 5] = 0 := by norm_num [np_var, np_mean]
  constructor
  · have hs : np_std [(1 : ℚ) / 5, 1 / 5, 1 / 5] = 0 := by
      rw [np_std, hv]
      norm_num [Real.sqrt_zero]
    have key : compute_threshold [] [1 / 5, 1 / 5, 1 / 5] =
        some ((np_mean [(1 : ℚ) / 5, 1 / 5, 1 / 5] : ℝ) +
          1.25 * np_std [(1 : ℚ) / 5, 1 / 5, 1 / 5]) := by
      simp [compute_threshold, np_mean_r]
    rw [key, hm, hs]
    norm_num
  · norm_num

/-- C6 (amended): whenever `std + EPSILON` is non-zero, `stable_z_score`
returns `(m - mean) / (std + EPSILON)` with no division error; at `std = 0`
this equals `(m - mean) * 1000000`.  (At `std = -EPSILON` exactly the
denominator is zero and the division raises.) -/
theorem C6_stable_z_score_formula :
    (∀ m mn s : ℚ, s + EPSILON ≠ 0 →
      stable_z_score m mn s = some ((m - mn) / (s + EPSILON))) ∧
    (∀ m mn : ℚ, stable_z_score m mn 0 = some ((m - mn) * 1000000)) := by
  constructor
  · intro m mn s h
    simp [stable_z_score, h]
  · intro m mn
    have h : (0 : ℚ) + EPSILON ≠ 0 := by norm_num [EPSILON]
    simp [stable_z_score, h, EPSILON]

/-- C6 witness: the formula applied at measurement 3, mean 1, std 0. -/
theorem C6_stable_z_score_witness :
    ((0 : ℚ) + EPSILON ≠ 0) ∧ stable_z_score 3 1 0 = some ((3 - 1) / (0 + EPSILON)) :=
  ⟨by norm_num [EPSILON], C6_stable_z_score_formula.1 3 1 0 (by norm_num [EPSILON])⟩

/-- C6 counterexample: at `std = -EPSILON` the smoothed denominator is
exactly zero and the float division raises instead of returning a finite
value. -/
theorem C6_division_error_at_negative_epsilon :
    stable_z_score 1 0 (-EPSILON) = none := by
  norm_num [stable_z_score]

/-- C7: fusing (0, 0) with the fixed 0.5/0.5 weights gives 0, fusing (1, 1)
gives 1, and for per-modality scores in [0, 1] the fused score after the
deviation boost never exceeds 1. -/
theorem C7_fusion_bounds :
    fuse_scores 0 0 = 0 ∧ fuse_scores 1 1 = 1 ∧
    ∀ k m dk dm : ℚ, 0 ≤ k → k ≤ 1 → 0 ≤ m → m ≤ 1 →
      apply_deviation_boost (fuse_scores k m) dk dm ≤ 1 := by
  refine ⟨by norm_num [fuse_scores], by norm_num [fuse_scores], ?_⟩
  intro k m dk dm hk0 hk1 hm0 hm1
  unfold apply_deviation_boost fuse_scores
  split_ifs with h
  · exact min_le_left _ _
  · linarith

/-- C7 witness: the bound applied at scores (1, 1) with a boosting
deviation. -/
theorem C7_fusion_bounds_witness :
    apply_deviation_boost (fuse_scores 1 1) 1 0 ≤ 1 :=
  C7_fusion_bounds.2.2 1 1 1 0 (by norm_num) (by norm_num) (by norm_num) (by norm_num)

/-- C8 (amended): the hold-time list pairs the i-th key press with the i-th
key release in timestamp order (by position, not by key identity); for
scenario 1 the hold-time list is [0.1, 0.1], the mean hold time is 0.1 and
the key-down count is 2. -/
theorem C8_hold_times_positional :
    (∀ (evs : List KeyEvent) (i : ℕ),
      (hold_times evs).get? i =
        ((key_presses evs).get? i).bind (fun p => ((key_releases evs).get? i).map
          (fun r => r.timestamp - p.timestamp))) ∧
    hold_times scenario1_events = [1 / 10, 1 / 10] ∧
    mean_or_zero (hold_times scenario1_events) = 1 / 10 ∧
    (key_presses scenario1_events).length = 2 := by
  have hp : key_presses scenario1_events =
      [⟨"a", "keydown", 0⟩, ⟨"b", "keydown", 3 / 10⟩] := by
    simp only [key_presses]
    rw [sort_scenario1]
    simp [scenario1_events]
  have hr : key_releases scenario1_events =
      [⟨"a", "keyup", 1 / 10⟩, ⟨"b", "keyup", 4 / 10⟩] := by
    simp only [key_releases]
    rw [sort_scenario1]
    simp [scenario1_events]
  have hh : hold_times scenario1_events = [1 / 10, 1 / 10] := by
    simp only [hold_times, hp, hr]
    norm_num
  refine ⟨fun evs i => zipWith_get_eq _ _ _ _, hh, ?_, by simp [hp]⟩
  rw [hh]
  norm_num [mean_or_zero, np_mean]

/-- C8 counterexample: for overlapping keystrokes (`a` down, `b` down, `b`
up, `a` up) the positional pairing of the code gives [0.1, 0.15] while
pairing each press with the release of the same key gives [0.2, 0.05]. -/
theorem C8_hold_times_not_same_key :
    hold_times overlap_events = [1 / 10, 3 / 20] ∧
    spec_hold_times_same_key overlap_events = [1 / 5, 1 / 20] ∧
    hold_times overlap_events ≠ spec_hold_times_same_key overlap_events := by
  have hp : key_presses overlap_events =
      [⟨"a", "keydown", 0⟩, ⟨"b", "keydown", 1 / 20⟩] := by
    simp only [key_presses]
    rw [sort_overlap]
    simp [overlap_events]
  have hr : key_releases overlap_events =
      [⟨"b", "keyup", 1 / 10⟩, ⟨"a", "keyup", 1 / 5⟩] := by
    simp only [key_releases]
    rw [sort_overlap]
    simp [overlap_events]
  have h1 : hold_times overlap_events = [1 / 10, 3 / 20] := by
    simp only [hold_times, hp, hr]
    norm_num
  have h2 : spec_hold_times_same_key overlap_events = [1 / 5, 1 / 20] := by
    simp only [spec_hold_times_same_key, hp, hr]
    simp [find_release]
    norm_num [List.filterMap_cons]
  refine ⟨h1, h2, ?_⟩
  rw [h1, h2]
  intro hcontra
  have := List.head_eq_of_cons_eq hcontra
  norm_num at this

/-- C9: when no stored baseline exists for the student, the exam-poll
analysis answers with status `no_baseline` and HTTP 200 — a normal response,
not an error-class failure — whatever the rest of the handler would do. -/
theorem C9_no_baseline_status :
    ∀ proceed : StudentBaseline → String × ℕ,
      analyze_behavior_response none proceed = ("no_baseline", 200) ∧
      (analyze_behavior_response none proceed).2 < 400 := by
  intro proceed
  exact ⟨rfl, by norm_num [analyze_behavior_response]⟩

/-- C10: in mouse exam mode, any feature whose baseline entry has
nonpositive std is normalized to exactly 0, whatever the raw value and the
baseline mean. -/
theorem C10_nonpositive_std_zero :
    ∀ (evs : List MouseEvent) (b : String → Option BaselineEntry) (name : String)
      (e : BaselineEntry), b name = some e → e.std ≤ 0 →
      mouse_exam_value evs b name = 0 := by
  intro evs b name e hb hs
  simp only [mouse_exam_value, hb, Option.getD_some]
  rw [mouse_normalized_value, if_neg (not_lt.mpr hs)]

/-- C10 witness: a single copy event with raw `copy_cut` value 1 and a
baseline entry `{mean: 5, std: 0}` normalizes to 0. -/
theorem C10_nonpositive_std_zero_witness :
    ((fun _ : String => some (BaselineEntry.mk 5 0)) "copy_cut" = some ⟨5, 0⟩) ∧
    mouse_exam_value single_copy_event (fun _ => some ⟨5, 0⟩) "copy_cut" = 0 :=
  ⟨rfl, C10_nonpositive_std_zero single_copy_event (fun _ => some ⟨5, 0⟩) "copy_cut" ⟨5, 0⟩
    rfl (by norm_num)⟩
